import Mathlib

set_option autoImplicit false
set_option maxRecDepth 8000

namespace IngressCtl

/-! Shallow embedding of the ngergs/ingress controller: the reconcile → state →
hot-swap → route pipeline. Definitions are translated from the Go sources in
`state/` (ingress.go, process.go, client.go) and `revproxy/` (stateload.go,
stateloading.go). Kubernetes API objects are modelled by the fields the
controller reads; Go maps are modelled as association lists (first binding
wins, mirroring unique-key map semantics); Go `nil` pointers and lookup
failures are modelled with `Option`; fallible calls return `Except`. -/

/-- networking/v1 PathType. The source always dereferences the `*PathType`
pointer, so the model keeps the three values; `pfx` stands for
`PathTypePrefix` and `implementationSpecific` for `PathTypeImplementationSpecific`. -/
inductive PathType where
  | exact
  | pfx
  | implementationSpecific
deriving DecidableEq

/-- core/v1 ServicePort: the two fields read by `updatePortFromService`. -/
structure ServicePort where
  name : String
  port : Int
deriving DecidableEq

/-- core/v1 Service, flattened to `Spec.Ports` which is all the controller reads. -/
structure Service where
  ports : List ServicePort
deriving DecidableEq

/-- networking/v1 ServiceBackendPort: `Number` is an int32 whose Go zero value 0
means "unset"; `Name` is "" when unset. -/
structure ServiceBackendPort where
  name : String
  number : Int
deriving DecidableEq

/-- networking/v1 IngressServiceBackend (`path.Backend.Service`). -/
structure IngressServiceBackend where
  name : String
  port : ServiceBackendPort
deriving DecidableEq

/-- networking/v1 HTTPIngressPath. -/
structure HTTPIngressPath where
  path : String
  pathType : PathType
  backend : IngressServiceBackend
deriving DecidableEq

/-- networking/v1 IngressRule; `httpPaths` models `rule.HTTP`, which is a
nilable pointer in Go (`none` when the rule carries no HTTP block). -/
structure IngressRule where
  host : String
  httpPaths : Option (List HTTPIngressPath)
deriving DecidableEq

/-- networking/v1 IngressTLS. -/
structure IngressTLS where
  hosts : List String
  secretName : String
deriving DecidableEq

/-- networking/v1 IngressSpec: the fields the controller reads. -/
structure IngressSpec where
  ingressClassName : Option String
  rules : List IngressRule
  tls : List IngressTLS
deriving DecidableEq

/-- networking/v1 Ingress: namespace, name, the object-metadata annotations
(`annots`, an association list modelling the Go string map) and the spec. -/
structure Ingress where
  nspace : String
  name : String
  annots : List (String × String)
  spec : IngressSpec
deriving DecidableEq

/-- core/v1 Secret: type plus the two data keys the controller reads. Byte
slices are modelled as lists of naturals. -/
structure Secret where
  nspace : String
  name : String
  secretType : String
  dataCrt : List Nat
  dataKey : List Nat
deriving DecidableEq

/-- Go map string lookup `m[key]` returning the zero value "" for a missing key. -/
def annotLookup : List (String × String) → String → String
  | [], _ => ""
  | (k, v) :: rest, key => if k = key then v else annotLookup rest key

/-- state.BackendPath (process.go). -/
structure BackendPath where
  pathType : PathType
  path : String
  nspace : String
  serviceName : String
  servicePort : Int
deriving DecidableEq

/-- state.TlsCert (process.go): raw certificate and key bytes. -/
structure TlsCert where
  cert : List Nat
  key : List Nat
deriving DecidableEq

/-- state.DomainConfig (process.go). -/
structure DomainConfig where
  backendPaths : List BackendPath
  tlsCert : Option TlsCert
deriving DecidableEq

/-- state.IngressState: the Go map host → DomainConfig as an association list. -/
abbrev IngressState := List (String × DomainConfig)

/-- Errors distinguished by `updatePortFromService` (process.go): the guard
error ErrInvalidBackendService, a failed service lister lookup, and
ErrServicePortNameNotFound. -/
inductive PortLookupError where
  | invalidBackendService
  | serviceNotFound
  | servicePortNameNotFound
deriving DecidableEq

/-- IngressReconciler.updatePortFromService (process.go:176-198). The input
`portNumber` is `config.ServicePort` (initialised from `port.Number`), and the
returned value is the final `config.ServicePort`. The service lister result is
passed in as `svcOpt`. A matching port number takes precedence; otherwise the
first service port with the given name supplies the port. -/
def updatePortFromService (svcOpt : Option Service) (portNumber : Int) (portName : String) :
    Except PortLookupError Int :=
  if portNumber = 0 ∧ portName = "" then Except.error PortLookupError.invalidBackendService
  else
    match svcOpt with
    | none => Except.error PortLookupError.serviceNotFound
    | some svc =>
      match svc.ports.find? (fun svcPort => decide (svcPort.port = portNumber)) with
      | some _ => Except.ok portNumber
      | none =>
        match svc.ports.find? (fun svcPort => decide (svcPort.name = portName)) with
        | some svcPort => Except.ok svcPort.port
        | none => Except.error PortLookupError.servicePortNameNotFound

/-- Typed errors recorded during snapshot build: collectBackendPaths wraps
every failed path in ErrServicePortNotFound (process.go:163), and
collectTlsSecrets records ErrTlsSecretNotFound and ErrTlsSecretWrongType. -/
inductive BuildError where
  | servicePortNotFound (portName serviceName : String)
  | tlsSecretNotFound (secretName : String)
  | tlsSecretWrongType (name nspace secretType : String)
deriving DecidableEq

/-- Error strings as produced by the wrapped Go errors in process.go. -/
def BuildError.message : BuildError → String
  | BuildError.servicePortNotFound portName serviceName =>
      "service port not found: " ++ portName ++ " for backend service " ++ serviceName
  | BuildError.tlsSecretNotFound secretName =>
      "referenced secret for tls certificate not found: " ++ secretName
  | BuildError.tlsSecretWrongType name nspace secretType =>
      "referenced secret for tls certificate has wrong type has to be kubernetes.io/tls: secret " ++
        name ++ " in namespace " ++ nspace ++ " with type " ++ secretType

/-- Error list collected by IngressReconciler.collectBackendPaths
(process.go:144-172): for each rule with an HTTP block and each path, a failed
`updatePortFromService` appends an ErrServicePortNotFound wrapper carrying the
path's port name and service name. The service lister is modelled as a lookup
function namespace → name → Option Service. -/
def collectBackendPathsErrors (serviceLister : String → String → Option Service)
    (ingress : Ingress) : List BuildError :=
  ingress.spec.rules.foldl
    (fun errs rule =>
      match rule.httpPaths with
      | none => errs
      | some paths =>
        errs ++ paths.foldl
          (fun pathErrs path =>
            match updatePortFromService (serviceLister ingress.nspace path.backend.name)
                path.backend.port.number path.backend.port.name with
            | Except.error _ =>
                pathErrs ++ [BuildError.servicePortNotFound path.backend.port.name path.backend.name]
            | Except.ok _ => pathErrs)
          [])
    []

/-- Error list collected by IngressReconciler.collectTlsSecrets
(process.go:201-226): a missing secret records ErrTlsSecretNotFound, a secret
whose type is not kubernetes.io/tls records ErrTlsSecretWrongType. -/
def collectTlsSecretsErrors (secretLister : String → String → Option Secret)
    (ingress : Ingress) : List BuildError :=
  ingress.spec.tls.foldl
    (fun errs rule =>
      match secretLister ingress.nspace rule.secretName with
      | none => errs ++ [BuildError.tlsSecretNotFound rule.secretName]
      | some secret =>
        if secret.secretType ≠ "kubernetes.io/tls" then
          errs ++ [BuildError.tlsSecretWrongType secret.name secret.nspace secret.secretType]
        else errs)
    []

/-- Per-ingress build errors as concatenated in processState (process.go:77-78):
backend-path errors first, then TLS secret errors. -/
def buildErrors (serviceLister : String → String → Option Service)
    (secretLister : String → String → Option Secret) (ingress : Ingress) : List BuildError :=
  collectBackendPathsErrors serviceLister ingress ++ collectTlsSecretsErrors secretLister ingress

/-- networking/v1 IngressPortStatus; `error` models the `*string` field. -/
structure IngressPortStatus where
  port : Int
  protocol : String
  error : Option String
deriving DecidableEq

/-- networking/v1 IngressLoadBalancerIngress. -/
structure IngressLoadBalancerIngress where
  ip : String
  hostname : String
  ports : List IngressPortStatus
deriving DecidableEq

/-- statusFromErrors (process.go:114-141): the strings.Builder loop writes each
error followed by ";" except after the last, i.e. intercalation with ";"; the
message is set only when the error list is nonempty, and both port entries
{80,TCP} and {443,TCP} share it. `hostIp` is the rendered host IP string. -/
def statusFromErrors (errors : List String) (hostIp : String) : IngressLoadBalancerIngress :=
  let errMsg : Option String :=
    if errors.length > 0 then some (String.intercalate ";" errors) else none
  { ip := hostIp
    hostname := ""
    ports := [ { port := 80, protocol := "TCP", error := errMsg },
               { port := 443, protocol := "TCP", error := errMsg } ] }

/-- Desired status computed for one owned ingress in processState
(process.go:80-85) when a host IP is configured. -/
def desiredStatusFor (serviceLister : String → String → Option Service)
    (secretLister : String → String → Option Secret) (hostIp : String)
    (ingress : Ingress) : IngressLoadBalancerIngress :=
  statusFromErrors ((buildErrors serviceLister secretLister ingress).map BuildError.message) hostIp

/-- Ports loop of statusEqual (state/client.go:151-159), translated faithfully:
the loop body checks the port fields and returns false on mismatch, and then
unconditionally returns false as well, so the first iteration always returns
false; only empty port lists reach the trailing `return true`. -/
def statusPortsLoop : List IngressPortStatus → List IngressPortStatus → Bool
  | [], _ => true
  | _ :: _, [] => false
  | port1 :: _, port2 :: _ =>
    if (port1.port ≠ port2.port ∨ port1.protocol ≠ port2.protocol ∨
        (port1.error.isSome = true ∧ port2.error.isSome = true ∧ port1.error ≠ port2.error) ∨
        ((port1.error = none ∧ port2.error.isSome = true) ∨ (port1.error.isSome = true ∧ port2.error = none)))
    then false
    else false

/-- statusEqual (state/client.go:145-161). -/
def statusEqual (el1 el2 : IngressLoadBalancerIngress) : Bool :=
  if el1.hostname ≠ el2.hostname ∨ el1.ip ≠ el2.ip ∨ el1.ports.length ≠ el2.ports.length
  then false
  else statusPortsLoop el1.ports el2.ports

/-- types.NamespacedName, the key of the reconciler's owned set. -/
structure IngressKey where
  nspace : String
  name : String
deriving DecidableEq

/-- The reconciler's owned set `ingressState : map[types.NamespacedName]*v1Net.Ingress`
as an association list with unique keys. -/
abbrev OwnedSet := List (IngressKey × Ingress)

/-- Go map read. -/
def mapGet : OwnedSet → IngressKey → Option Ingress
  | [], _ => none
  | (k, v) :: rest, key => if k = key then some v else mapGet rest key

/-- Go `delete(m, key)`. -/
def mapDelete : OwnedSet → IngressKey → OwnedSet
  | [], _ => []
  | (k, v) :: rest, key => if k = key then mapDelete rest key else (k, v) :: mapDelete rest key

/-- Go `m[key] = v` (insert or overwrite). -/
def mapInsert (owned : OwnedSet) (key : IngressKey) (v : Ingress) : OwnedSet :=
  (key, v) :: mapDelete owned key

/-- Outcome of the Get call at the top of Reconcile (ingress.go:194-197):
either an API error that is not NotFound, NotFound, or the fetched object. -/
inductive FetchResult where
  | apiError
  | notFound
  | found (ingress : Ingress)
deriving DecidableEq

/-- ctrl.Result as used by Reconcile: requeue or done. -/
inductive ReconcileOutcome where
  | done
  | requeue
deriving DecidableEq

/-- Class rejection test of Reconcile (state/ingress.go:204-205):
reject when ingressClassName is set and differs from the configured class, or
when it is nil and the legacy annotation differs from the configured class. -/
def classRejected (ingress : Ingress) (ingressClassName : String) : Bool :=
  (ingress.spec.ingressClassName.isSome && decide (ingress.spec.ingressClassName ≠ some ingressClassName)) ||
  (ingress.spec.ingressClassName.isNone &&
    decide (annotLookup ingress.annots "kubernetes.io/ingress.class" ≠ ingressClassName))

/-- Owned-set transition of IngressReconciler.Reconcile (state/ingress.go:192-226):
a non-NotFound API error requeues without touching the set; NotFound deletes the
key; a fetched ingress whose class is rejected causes an early return that
leaves the owned set unchanged; otherwise the key is stored unless the stored
spec is already deep-equal. -/
def reconcile (ingressClassName : String) (owned : OwnedSet) (key : IngressKey)
    (fetch : FetchResult) : ReconcileOutcome × OwnedSet :=
  match fetch with
  | FetchResult.apiError => (ReconcileOutcome.requeue, owned)
  | FetchResult.notFound => (ReconcileOutcome.done, mapDelete owned key)
  | FetchResult.found ingress =>
    if classRejected ingress ingressClassName then (ReconcileOutcome.done, owned)
    else
      match mapGet owned key with
      | some currentIngress =>
        if currentIngress.spec = ingress.spec then (ReconcileOutcome.done, owned)
        else (ReconcileOutcome.done, mapInsert owned key ingress)
      | none => (ReconcileOutcome.done, mapInsert owned key ingress)

/-- revproxy.backendPathHandler (stateload.go:102-106): path rule plus the
reverse-proxy handler, which is identified here by its parsed upstream URL. -/
structure BackendPathHandler where
  pathType : PathType
  path : String
  proxyUrl : String
deriving DecidableEq

/-- revproxy.BackendRouting: host → ordered backend path handlers. -/
abbrev BackendRouting := List (String × List BackendPathHandler)

/-- Parsed tls.Certificate material, abstracted as bytes. -/
abbrev TlsCertificate := List Nat

/-- revproxy.TlsCerts: host → parsed certificate. -/
abbrev TlsCerts := List (String × TlsCertificate)

/-- revproxy.reverseProxyState: the value held by the atomic state cell. -/
structure reverseProxyState where
  backendPathHandlers : BackendRouting
  tlsCerts : TlsCerts
deriving DecidableEq

/-- Go map lookup for string-keyed association lists. -/
def mapLookup {β : Type} : List (String × β) → String → Option β
  | [], _ => none
  | (k, v) :: rest, key => if k = key then some v else mapLookup rest key

/-- Upstream URL built in getBackendPathHandlers (stateloading.go:142-145). -/
def backendUrlString (pathRule : BackendPath) : String :=
  "http://" ++ pathRule.serviceName ++ "." ++ pathRule.nspace ++ ".svc.cluster.local" ++
    ":" ++ toString pathRule.servicePort

/-- Comparator passed to sort.Slice in getBackendPathHandlers
(stateloading.go:161-169): an Exact left operand sorts first, an Exact right
operand sorts first, otherwise the longer path sorts first. -/
def proxyLess (a b : BackendPathHandler) : Bool :=
  if a.pathType = PathType.exact then true
  else if b.pathType = PathType.exact then false
  else decide (b.path.length < a.path.length)

/-- Insertion step of the insertion sort: the new element is placed before the
first retained element it compares less-than. -/
def insertSorted {α : Type} (less : α → α → Bool) (x : α) : List α → List α
  | [] => [x]
  | y :: ys => if less x y then x :: y :: ys else y :: insertSorted less x ys

/-- Model of Go sort.Slice: each element of the input is inserted in turn into
a sorted prefix, the placement a new element reaches by swapping left while the
comparator holds against its left neighbour. The comparator above is not a
strict weak order (two Exact entries compare less-than both ways), so Go leaves
the relative order of Exact entries unspecified; this model fixes one such
order while preserving the Exact-block-first, longest-path-first shape. -/
def sortSlice {α : Type} (less : α → α → Bool) (l : List α) : List α :=
  l.foldl (fun sorted x => insertSorted less x sorted) []

/-- Per-host handler construction loop of getBackendPathHandlers
(stateloading.go:139-159): every backend path becomes a handler bound to its
parsed upstream URL; a URL parse failure aborts with an error.
`parseRequestURI` models url.ParseRequestURI. -/
def buildProxies (parseRequestURI : String → Option String) :
    List BackendPath → Except String (List BackendPathHandler)
  | [] => Except.ok []
  | pathRule :: rest =>
    match parseRequestURI (backendUrlString pathRule) with
    | none => Except.error (backendUrlString pathRule)
    | some u =>
      match buildProxies parseRequestURI rest with
      | Except.error e => Except.error e
      | Except.ok handlers =>
          Except.ok ({ pathType := pathRule.pathType, path := pathRule.path, proxyUrl := u } :: handlers)

/-- getBackendPathHandlers (stateloading.go:136-173): for each host the
backend paths are turned into proxy handlers and sorted with the comparator
above; any URL failure aborts the whole build. -/
def getBackendPathHandlers (parseRequestURI : String → Option String) :
    IngressState → Except String BackendRouting
  | [] => Except.ok []
  | (host, domainConfig) :: rest =>
    match buildProxies parseRequestURI domainConfig.backendPaths with
    | Except.error e => Except.error e
    | Except.ok proxies =>
      match getBackendPathHandlers parseRequestURI rest with
      | Except.error e => Except.error e
      | Except.ok restRouting => Except.ok ((host, sortSlice proxyLess proxies) :: restRouting)

/-- getTlsCerts (stateloading.go:177-191): hosts without a TlsCert are skipped;
a key-pair parse failure aborts the whole build. `x509KeyPair` models
tls.X509KeyPair. -/
def getTlsCerts (x509KeyPair : TlsCert → Option TlsCertificate) :
    IngressState → Except String TlsCerts
  | [] => Except.ok []
  | (host, domainConfig) :: rest =>
    match domainConfig.tlsCert with
    | none => getTlsCerts x509KeyPair rest
    | some tlsCert =>
      match x509KeyPair tlsCert with
      | none => Except.error host
      | some cert =>
        match getTlsCerts x509KeyPair rest with
        | Except.error e => Except.error e
        | Except.ok certs => Except.ok ((host, cert) :: certs)

/-- ReverseProxy.LoadIngressState (stateloading.go:114-130): build the backend
path handlers, then the certificates; only when both succeed is the new state
stored into the atomic cell, which is modelled as the `Option reverseProxyState`
value threaded through. -/
def loadIngressState (parseRequestURI : String → Option String)
    (x509KeyPair : TlsCert → Option TlsCertificate)
    (stateCell : Option reverseProxyState) (ingressState : IngressState) :
    Except String Unit × Option reverseProxyState :=
  match getBackendPathHandlers parseRequestURI ingressState with
  | Except.error e => (Except.error e, stateCell)
  | Except.ok backendPathHandlers =>
    match getTlsCerts x509KeyPair ingressState with
    | Except.error e => (Except.error e, stateCell)
    | Except.ok tlsCerts =>
        (Except.ok (), some { backendPathHandlers := backendPathHandlers, tlsCerts := tlsCerts })

/-- Go strings.HasPrefix, modelled on the underlying character list so that it
evaluates by kernel reduction. -/
def hasPrefix (s pre : String) : Bool :=
  pre.data.isPrefixOf s.data

/-- Per-entry test of backendPathHandlers.match (stateload.go:109-119): an
entry matches when it is Exact and the path is equal, or — for any entry,
regardless of its path type — when the request path begins with the entry path. -/
def entryMatches (pathHandler : BackendPathHandler) (path : String) : Bool :=
  (decide (pathHandler.pathType = PathType.exact) && decide (path = pathHandler.path)) ||
    hasPrefix path pathHandler.path

/-- backendPathHandlers.match (stateload.go:109-119): first matching entry. -/
def matchPath (pathHandlers : List BackendPathHandler) (path : String) : Option BackendPathHandler :=
  pathHandlers.find? (fun pathHandler => entryMatches pathHandler path)

/-- Responses a handler can produce, at the granularity the claims need:
503, 404, dispatch to a backend handler, or a 308 with a Location header. -/
inductive HandlerResponse where
  | serviceUnavailable
  | notFound
  | dispatched (pathHandler : BackendPathHandler)
  | permanentRedirect (location : String)
deriving DecidableEq

/-- ReverseProxy.GetHandlerProxying (stateload.go:171-191): 503 while the state
cell is empty, 404 on host miss, dispatch to the first matching entry, 404 when
no entry matches. -/
def getHandlerProxying (stateCell : Option reverseProxyState) (host path : String) :
    HandlerResponse :=
  match stateCell with
  | none => HandlerResponse.serviceUnavailable
  | some state =>
    match mapLookup state.backendPathHandlers host with
    | none => HandlerResponse.notFound
    | some pathHandlers =>
      match matchPath pathHandlers path with
      | some pathHandler => HandlerResponse.dispatched pathHandler
      | none => HandlerResponse.notFound

/-- Constant acmePath (stateload.go:76). -/
def acmePath : String := "/.well-known/acme-challenge"

/-- ReverseProxy.GetHttpsRedirectHandler (stateload.go:196-223): 503 while the
state cell is empty, 404 on host miss; for an ACME-challenge path a matching
entry is dispatched; otherwise a matching entry yields a 308 whose Location is
https:// plus host plus path, and 404 when nothing matches. -/
def getHttpsRedirectHandler (stateCell : Option reverseProxyState) (host path : String) :
    HandlerResponse :=
  match stateCell with
  | none => HandlerResponse.serviceUnavailable
  | some state =>
    match mapLookup state.backendPathHandlers host with
    | none => HandlerResponse.notFound
    | some pathHandlers =>
      match (if hasPrefix path acmePath then matchPath pathHandlers path else none) with
      | some pathHandler => HandlerResponse.dispatched pathHandler
      | none =>
        match matchPath pathHandlers path with
        | some _ => HandlerResponse.permanentRedirect ("https://" ++ host ++ path)
        | none => HandlerResponse.notFound

/-- Ordering relation the sorted per-host list is expected to satisfy pairwise:
a non-Exact entry never precedes an Exact one, and among non-Exact entries the
path length does not increase. -/
def pathOrderOk (a b : BackendPathHandler) : Prop :=
  (b.pathType = PathType.exact → a.pathType = PathType.exact) ∧
  (a.pathType ≠ PathType.exact → b.pathType ≠ PathType.exact → b.path.length ≤ a.path.length)

/-! Concrete inputs used by the witnesses. -/

/-- Example key for the reconcile witnesses. -/
def exKey : IngressKey := { nspace := "default", name := "app" }

/-- Example spec whose class is the configured one. -/
def exSpecOld : IngressSpec := { ingressClassName := some "ingress", rules := [], tls := [] }

/-- Example owned ingress with matching class. -/
def exIngOld : Ingress := { nspace := "default", name := "app", annots := [], spec := exSpecOld }

/-- Example ingress whose class changed away from the configured one. -/
def exIngNew : Ingress :=
  { nspace := "default", name := "app", annots := []
    spec := { ingressClassName := some "other", rules := [], tls := [] } }

/-- Example service exposing a numbered and a named port. -/
def exService : Service := { ports := [{ name := "port", port := 8080 }, { name := "other", port := 9090 }] }

/-- Example ingress with one HTTP path, used by the status witness. -/
def exC6Ingress : Ingress :=
  { nspace := "default", name := "app", annots := []
    spec :=
      { ingressClassName := some "ingress"
        rules := [{ host := "localhost"
                    httpPaths := some [{ path := "/test", pathType := PathType.pfx
                                         backend := { name := "svc", port := { name := "", number := 8080 } } }] }]
        tls := [] } }

/-- Example ingress state with three paths for one host, as in the repository's
sort-priority test scenario. -/
def exIngressState : IngressState :=
  [("localhost",
    { backendPaths :=
        [ { pathType := PathType.pfx, path := "/", nspace := "default", serviceName := "svc", servicePort := 8080 },
          { pathType := PathType.exact, path := "/test123", nspace := "default", serviceName := "svc", servicePort := 8080 },
          { pathType := PathType.pfx, path := "/test", nspace := "default", serviceName := "svc", servicePort := 8080 } ]
      tlsCert := none })]

/-- URL parser model that accepts every URL. -/
def parseAccept : String → Option String := fun s => some s

/-- URL parser model that rejects every URL. -/
def parseReject : String → Option String := fun _ => none

/-- Key-pair parser model that accepts every pair. -/
def x509Accept : TlsCert → Option TlsCertificate := fun c => some c.cert

/-- Upstream URL of the example backend paths. -/
def exUrl : String := "http://svc.default.svc.cluster.local:8080"

/-- Sorted handler list the example state loads to. -/
def exHandlers : List BackendPathHandler :=
  [ { pathType := PathType.exact, path := "/test123", proxyUrl := exUrl },
    { pathType := PathType.pfx, path := "/test", proxyUrl := exUrl },
    { pathType := PathType.pfx, path := "/", proxyUrl := exUrl } ]

/-- Routing table the example state loads to. -/
def exRouting : BackendRouting := [("localhost", exHandlers)]

/-- Snapshot used by the router witnesses. -/
def exSnapshot : reverseProxyState := { backendPathHandlers := exRouting, tlsCerts := [] }

/-- Exact-typed handler whose path is a proper prefix of the witness request path. -/
def exExactHandler : BackendPathHandler :=
  { pathType := PathType.exact, path := "/test", proxyUrl := exUrl }

/-- Status value used to exhibit the statusEqual defect: the status every
ingress receives when the build produced no errors. -/
def exStatus : IngressLoadBalancerIngress := statusFromErrors [] "10.0.0.1"

/-! Helper lemmas about the owned-set map operations. -/

theorem mapGet_mapDelete (owned : OwnedSet) (key : IngressKey) :
    mapGet (mapDelete owned key) key = none := by
  induction owned with
  | nil => rfl
  | cons hd tl ih =>
    obtain ⟨k, v⟩ := hd
    by_cases h : k = key
    · simp [mapDelete, h, ih]
    · simp [mapDelete, mapGet, h, ih]

theorem mapGet_mapInsert (owned : OwnedSet) (key : IngressKey) (v : Ingress) :
    mapGet (mapInsert owned key v) key = some v := by
  simp [mapInsert, mapGet]

/-- Claim C1 counterexample: for the configured class "ingress", an owned set
holding key (default, app), and a fetched ingress whose class changed to
"other", the key is still present in the owned set after the reconcile even
though the fetched ingress exists and its class does not match — the claimed
equivalence between ownership and class match fails, because the class-mismatch
branch of Reconcile returns early without deleting the key. -/
theorem reconcile_class_counterexample :
    ¬ (((mapGet (reconcile "ingress" [(exKey, exIngOld)] exKey
          (FetchResult.found exIngNew)).2 exKey).isSome = true) ↔
        classRejected exIngNew "ingress" = false) := by decide

/-- Claim C1 (amended): after a reconcile of key K that did not hit an API
error, (a) if the fetch reported the ingress absent, K is no longer in the
owned set; (b) if the fetched ingress exists and its class matches the
configured class, K is in the owned set; (c) if the fetched ingress exists but
its class does not match, the reconciler returns early and the owned set is
left completely unchanged — in particular K is NOT removed. -/
theorem reconcile_owned_characterization (ingressClassName : String) (owned : OwnedSet)
    (key : IngressKey) (fetch : FetchResult) :
    (fetch = FetchResult.notFound →
        mapGet (reconcile ingressClassName owned key fetch).2 key = none) ∧
    (∀ ingress, fetch = FetchResult.found ingress →
        classRejected ingress ingressClassName = false →
        (mapGet (reconcile ingressClassName owned key fetch).2 key).isSome = true) ∧
    (∀ ingress, fetch = FetchResult.found ingress →
        classRejected ingress ingressClassName = true →
        (reconcile ingressClassName owned key fetch).2 = owned) := by
  refine ⟨?_, ?_, ?_⟩
  · intro h
    subst h
    simp [reconcile, mapGet_mapDelete]
  · intro ingress h hc
    subst h
    cases hg : mapGet owned key with
    | none => simp [reconcile, hc, hg, mapGet_mapInsert]
    | some currentIngress =>
      by_cases hspec : currentIngress.spec = ingress.spec
      · simp [reconcile, hc, hg, hspec]
      · simp [reconcile, hc, hg, hspec, mapGet_mapInsert]
  · intro ingress h hc
    subst h
    simp [reconcile, hc]

/-- Witness for the amended reconcile characterization at concrete inputs:
a NotFound fetch removes the key, an accepted fetch stores it, and a
class-mismatch fetch leaves the previously owned entry in place. -/
theorem reconcile_owned_characterization_witness :
    mapGet (reconcile "ingress" [] exKey FetchResult.notFound).2 exKey = none ∧
    (mapGet (reconcile "ingress" [] exKey (FetchResult.found exIngOld)).2 exKey).isSome = true ∧
    (reconcile "ingress" [(exKey, exIngOld)] exKey (FetchResult.found exIngNew)).2 =
      [(exKey, exIngOld)] :=
  ⟨(reconcile_owned_characterization "ingress" [] exKey FetchResult.notFound).1 rfl,
   (reconcile_owned_characterization "ingress" [] exKey (FetchResult.found exIngOld)).2.1
      exIngOld rfl (by decide),
   (reconcile_owned_characterization "ingress" [(exKey, exIngOld)] exKey
      (FetchResult.found exIngNew)).2.2 exIngNew rfl (by decide)⟩

/-- Claim C5: port resolution of updatePortFromService — a service port whose
number equals the backend's port.number wins regardless of port.name; failing
that, the first service port whose name equals port.name supplies the port;
failing both, the path is dropped with an error; and when neither port.number
nor port.name is set the result is InvalidBackendService for every service
lookup outcome, i.e. without consulting the service. -/
theorem updatePortFromService_spec (svc : Service) (portNumber : Int) (portName : String) :
    (portNumber ≠ 0 → (∃ svcPort ∈ svc.ports, svcPort.port = portNumber) →
        updatePortFromService (some svc) portNumber portName = Except.ok portNumber) ∧
    (portName ≠ "" → (∀ svcPort ∈ svc.ports, svcPort.port ≠ portNumber) →
        (∃ svcPort ∈ svc.ports, svcPort.name = portName) →
        ∃ svcPort, svcPort ∈ svc.ports ∧ svcPort.name = portName ∧
          updatePortFromService (some svc) portNumber portName = Except.ok svcPort.port) ∧
    ((∀ svcPort ∈ svc.ports, svcPort.port ≠ portNumber) →
        (∀ svcPort ∈ svc.ports, svcPort.name ≠ portName) →
        ∃ err, updatePortFromService (some svc) portNumber portName = Except.error err) ∧
    (∀ svcOpt : Option Service,
        updatePortFromService svcOpt 0 "" = Except.error PortLookupError.invalidBackendService) := by
  refine ⟨?_, ?_, ?_, ?_⟩
  · intro hne hex
    have hsome : (svc.ports.find? (fun svcPort => decide (svcPort.port = portNumber))).isSome := by
      rw [List.find?_isSome]
      obtain ⟨p, hp, hpe⟩ := hex
      exact ⟨p, hp, by simp [hpe]⟩
    obtain ⟨p, hp⟩ := Option.isSome_iff_exists.mp hsome
    simp only [updatePortFromService, hp]
    rw [if_neg]
    intro hcon
    exact hne hcon.1
  · intro hname hnonum hex
    have hnone : svc.ports.find? (fun svcPort => decide (svcPort.port = portNumber)) = none := by
      rw [List.find?_eq_none]
      intro p hp
      simp [hnonum p hp]
    have hsome : (svc.ports.find? (fun svcPort => decide (svcPort.name = portName))).isSome := by
      rw [List.find?_isSome]
      obtain ⟨p, hp, hpe⟩ := hex
      exact ⟨p, hp, by simp [hpe]⟩
    obtain ⟨p, hp⟩ := Option.isSome_iff_exists.mp hsome
    refine ⟨p, List.mem_of_find?_eq_some hp, by simpa using List.find?_some hp, ?_⟩
    simp only [updatePortFromService, hnone, hp]
    rw [if_neg]
    intro hcon
    exact hname hcon.2
  · intro hnonum hnoname
    by_cases hguard : portNumber = 0 ∧ portName = ""
    · exact ⟨PortLookupError.invalidBackendService, by simp [updatePortFromService, hguard]⟩
    · have hnone1 : svc.ports.find? (fun svcPort => decide (svcPort.port = portNumber)) = none := by
        rw [List.find?_eq_none]
        intro p hp
        simp [hnonum p hp]
      have hnone2 : svc.ports.find? (fun svcPort => decide (svcPort.name = portName)) = none := by
        rw [List.find?_eq_none]
        intro p hp
        simp [hnoname p hp]
      exact ⟨PortLookupError.servicePortNameNotFound,
        by simp [updatePortFromService, hguard, hnone1, hnone2]⟩
  · intro svcOpt
    simp [updatePortFromService]

/-- Witness for the port-resolution claim: with a service exposing
(name "port", 8080) and (name "other", 9090) a numeric match keeps 8080 even
though a name is also given; a name match substitutes 9090; an unmatched pair
errors; and unset number and name give InvalidBackendService with no service. -/
theorem updatePortFromService_spec_witness :
    updatePortFromService (some exService) 8080 "other" = Except.ok 8080 ∧
    (∃ svcPort, svcPort ∈ exService.ports ∧ svcPort.name = "other" ∧
        updatePortFromService (some exService) 0 "other" = Except.ok svcPort.port) ∧
    (∃ err, updatePortFromService (some exService) 1234 "nope" = Except.error err) ∧
    updatePortFromService none 0 "" = Except.error PortLookupError.invalidBackendService :=
  ⟨(updatePortFromService_spec exService 8080 "other").1 (by decide) (by decide),
   (updatePortFromService_spec exService 0 "other").2.1 (by decide) (by decide) (by decide),
   (updatePortFromService_spec exService 1234 "nope").2.2.1 (by decide) (by decide),
   (updatePortFromService_spec exService 0 "").2.2.2 none⟩

/-- Claim C6: the desired status computed for an ingress when a host IP is
configured carries that IP, exactly the two port entries {80,TCP} and {443,TCP}
sharing one optional message, and the message is absent precisely when the
build produced no errors for that ingress, otherwise it is the semicolon-joined
concatenation of the typed build errors' messages. -/
theorem desiredStatusFor_spec (serviceLister : String → String → Option Service)
    (secretLister : String → String → Option Secret) (hostIp : String) (ingress : Ingress) :
    ∃ errMsg : Option String,
      (desiredStatusFor serviceLister secretLister hostIp ingress).ip = hostIp ∧
      (desiredStatusFor serviceLister secretLister hostIp ingress).ports =
        [ { port := 80, protocol := "TCP", error := errMsg },
          { port := 443, protocol := "TCP", error := errMsg } ] ∧
      (errMsg = none ↔ buildErrors serviceLister secretLister ingress = []) ∧
      (buildErrors serviceLister secretLister ingress ≠ [] →
        errMsg = some (String.intercalate ";"
          ((buildErrors serviceLister secretLister ingress).map BuildError.message))) := by
  by_cases h : buildErrors serviceLister secretLister ingress = []
  · refine ⟨none, ?_, ?_, ?_, ?_⟩ <;>
      simp [desiredStatusFor, statusFromErrors, h]
  · refine ⟨some (String.intercalate ";"
      ((buildErrors serviceLister secretLister ingress).map BuildError.message)), ?_, ?_, ?_, ?_⟩ <;>
      simp [desiredStatusFor, statusFromErrors, h, List.length_pos]

/-- Witness for the desired-status claim: with empty listers the example
ingress's only path fails, so the status carries the configured IP. -/
theorem desiredStatusFor_spec_witness :
    (desiredStatusFor (fun _ _ => none) (fun _ _ => none) "10.0.0.1" exC6Ingress).ip =
      "10.0.0.1" := by
  obtain ⟨errMsg, hip, hports, hiff, hmsg⟩ :=
    desiredStatusFor_spec (fun _ _ => none) (fun _ _ => none) "10.0.0.1" exC6Ingress
  exact hip

/-- Claim C7 (code bug): statusEqual is not reflexive — the loop body of the
ports comparison ends in an unconditional `return false`, so any status with a
nonempty ports list, such as the one statusFromErrors always builds, is not
equal to itself. -/
theorem statusEqual_not_reflexive : statusEqual exStatus exStatus = false := by decide

/-- Claim C10: LoadIngressState stores a new reverse-proxy state only when both
build steps succeed; when building the backend path handlers or parsing a
certificate fails, the error is returned and the state cell keeps its previous
value unchanged. -/
theorem loadIngressState_atomic (parseRequestURI : String → Option String)
    (x509KeyPair : TlsCert → Option TlsCertificate)
    (stateCell : Option reverseProxyState) (ingressState : IngressState) :
    (∀ e, getBackendPathHandlers parseRequestURI ingressState = Except.error e →
        loadIngressState parseRequestURI x509KeyPair stateCell ingressState =
          (Except.error e, stateCell)) ∧
    (∀ handlers e, getBackendPathHandlers parseRequestURI ingressState = Except.ok handlers →
        getTlsCerts x509KeyPair ingressState = Except.error e →
        loadIngressState parseRequestURI x509KeyPair stateCell ingressState =
          (Except.error e, stateCell)) ∧
    (∀ handlers certs, getBackendPathHandlers parseRequestURI ingressState = Except.ok handlers →
        getTlsCerts x509KeyPair ingressState = Except.ok certs →
        loadIngressState parseRequestURI x509KeyPair stateCell ingressState =
          (Except.ok (), some { backendPathHandlers := handlers, tlsCerts := certs })) ∧
    (∀ e, (loadIngressState parseRequestURI x509KeyPair stateCell ingressState).1 =
          Except.error e →
        (loadIngressState parseRequestURI x509KeyPair stateCell ingressState).2 = stateCell) := by
  refine ⟨?_, ?_, ?_, ?_⟩
  · intro e he
    simp [loadIngressState, he]
  · intro handlers e hh ht
    simp [loadIngressState, hh, ht]
  · intro handlers certs hh ht
    simp [loadIngressState, hh, ht]
  · intro e
    cases hh : getBackendPathHandlers parseRequestURI ingressState with
    | error e2 => simp [loadIngressState, hh]
    | ok handlers =>
      cases ht : getTlsCerts x509KeyPair ingressState with
      | error e2 => simp [loadIngressState, hh, ht]
      | ok certs => simp [loadIngressState, hh, ht]

/-- Witness for the load atomicity claim: a rejecting URL parser fails the
handler build on the example state, and the previously published snapshot stays
in the cell. -/
theorem loadIngressState_atomic_witness :
    loadIngressState parseReject x509Accept (some exSnapshot) exIngressState =
      (Except.error "http://svc.default.svc.cluster.local:8080", some exSnapshot) :=
  (loadIngressState_atomic parseReject x509Accept (some exSnapshot) exIngressState).1
    "http://svc.default.svc.cluster.local:8080" rfl

/-! Helper lemmas for the sort-order invariant. -/

theorem pathOrderOk_trans {a b c : BackendPathHandler}
    (hab : pathOrderOk a b) (hbc : pathOrderOk b c) : pathOrderOk a c := by
  obtain ⟨hab1, hab2⟩ := hab
  obtain ⟨hbc1, hbc2⟩ := hbc
  constructor
  · intro hc
    exact hab1 (hbc1 hc)
  · intro ha hc
    by_cases hb : b.pathType = PathType.exact
    · exact absurd (hab1 hb) ha
    · exact le_trans (hbc2 hb hc) (hab2 ha hb)

theorem proxyLess_true_ok {a b : BackendPathHandler} (h : proxyLess a b = true) :
    pathOrderOk a b := by
  unfold proxyLess at h
  by_cases ha : a.pathType = PathType.exact
  · exact ⟨fun _ => ha, fun ha' _ => absurd ha ha'⟩
  · rw [if_neg ha] at h
    by_cases hb : b.pathType = PathType.exact
    · rw [if_pos hb] at h
      cases h
    · rw [if_neg hb] at h
      exact ⟨fun hbe => absurd hbe hb, fun _ _ => le_of_lt (of_decide_eq_true h)⟩

theorem proxyLess_false_ok {a b : BackendPathHandler} (h : proxyLess a b = false) :
    pathOrderOk b a := by
  unfold proxyLess at h
  by_cases ha : a.pathType = PathType.exact
  · rw [if_pos ha] at h
    cases h
  · rw [if_neg ha] at h
    by_cases hb : b.pathType = PathType.exact
    · exact ⟨fun _ => hb, fun hb' _ => absurd hb hb'⟩
    · rw [if_neg hb] at h
      exact ⟨fun hae => absurd hae ha,
        fun _ _ => Nat.le_of_not_lt (of_decide_eq_false h)⟩

theorem mem_insertSorted {α : Type} {less : α → α → Bool} {x z : α} :
    ∀ {l : List α}, z ∈ insertSorted less x l → z = x ∨ z ∈ l := by
  intro l
  induction l with
  | nil =>
    intro h
    simp [insertSorted] at h
    exact Or.inl h
  | cons y ys ih =>
    intro h
    cases hc : less x y with
    | true =>
      simp only [insertSorted, hc, if_true] at h
      rcases List.mem_cons.mp h with h | h
      · exact Or.inl h
      · exact Or.inr h
    | false =>
      simp only [insertSorted, hc, Bool.false_eq_true, if_false] at h
      rcases List.mem_cons.mp h with h | h
      · exact Or.inr (by simp [h])
      · rcases ih h with h' | h'
        · exact Or.inl h'
        · exact Or.inr (List.mem_cons_of_mem _ h')

theorem pairwise_insertSorted (x : BackendPathHandler) :
    ∀ (l : List BackendPathHandler), List.Pairwise pathOrderOk l →
      List.Pairwise pathOrderOk (insertSorted proxyLess x l) := by
  intro l
  induction l with
  | nil =>
    intro _
    simp [insertSorted]
  | cons y ys ih =>
    intro hp
    rw [List.pairwise_cons] at hp
    obtain ⟨hy, hys⟩ := hp
    cases hc : proxyLess x y with
    | true =>
      simp only [insertSorted, hc, if_true]
      rw [List.pairwise_cons]
      refine ⟨?_, List.pairwise_cons.mpr ⟨hy, hys⟩⟩
      intro z hz
      rcases List.mem_cons.mp hz with h | h
      · subst h
        exact proxyLess_true_ok hc
      · exact pathOrderOk_trans (proxyLess_true_ok hc) (hy z h)
    | false =>
      simp only [insertSorted, hc, Bool.false_eq_true, if_false]
      rw [List.pairwise_cons]
      refine ⟨?_, ih hys⟩
      intro z hz
      rcases mem_insertSorted hz with h | h
      · subst h
        exact proxyLess_false_ok hc
      · exact hy z h

theorem pairwise_foldl_insert :
    ∀ (l acc : List BackendPathHandler), List.Pairwise pathOrderOk acc →
      List.Pairwise pathOrderOk
        (l.foldl (fun sorted x => insertSorted proxyLess x sorted) acc) := by
  intro l
  induction l with
  | nil =>
    intro acc h
    exact h
  | cons x xs ih =>
    intro acc h
    exact ih _ (pairwise_insertSorted x acc h)

theorem pairwise_sortSlice (l : List BackendPathHandler) :
    List.Pairwise pathOrderOk (sortSlice proxyLess l) :=
  pairwise_foldl_insert l [] List.Pairwise.nil

theorem getBackendPathHandlers_lookup_sorted (parseRequestURI : String → Option String) :
    ∀ (ingressState : IngressState) (routing : BackendRouting),
      getBackendPathHandlers parseRequestURI ingressState = Except.ok routing →
      ∀ host handlers, mapLookup routing host = some handlers →
        ∃ l, handlers = sortSlice proxyLess l := by
  intro st
  induction st with
  | nil =>
    intro routing h host handlers hl
    simp only [getBackendPathHandlers, Except.ok.injEq] at h
    subst h
    simp [mapLookup] at hl
  | cons hd rest ih =>
    obtain ⟨host0, dc⟩ := hd
    intro routing h host handlers hl
    simp only [getBackendPathHandlers] at h
    cases hbp : buildProxies parseRequestURI dc.backendPaths with
    | error e =>
      rw [hbp] at h
      cases h
    | ok proxies =>
      rw [hbp] at h
      cases hrest : getBackendPathHandlers parseRequestURI rest with
      | error e =>
        rw [hrest] at h
        cases h
      | ok restRouting =>
        rw [hrest] at h
        simp only [Except.ok.injEq] at h
        subst h
        simp only [mapLookup] at hl
        by_cases hh : host0 = host
        · rw [if_pos hh] at hl
          exact ⟨proxies, (Option.some.injEq _ _ ▸ hl).symm⟩
        · rw [if_neg hh] at hl
          exact ih restRouting hrest host handlers hl

/-- Claim C2: every routing table built by getBackendPathHandlers is, per host,
ordered with all Exact entries strictly before all non-Exact entries, and with
non-increasing path lengths among the non-Exact entries. -/
theorem getBackendPathHandlers_ordering (parseRequestURI : String → Option String)
    (ingressState : IngressState) (routing : BackendRouting)
    (hok : getBackendPathHandlers parseRequestURI ingressState = Except.ok routing)
    (host : String) (handlers : List BackendPathHandler)
    (hlook : mapLookup routing host = some handlers) :
    (∀ i j (hi : i < handlers.length) (hj : j < handlers.length),
        (handlers.get ⟨i, hi⟩).pathType = PathType.exact →
        (handlers.get ⟨j, hj⟩).pathType ≠ PathType.exact → i < j) ∧
    (∀ i j (hi : i < handlers.length) (hj : j < handlers.length), i < j →
        (handlers.get ⟨i, hi⟩).pathType ≠ PathType.exact →
        (handlers.get ⟨j, hj⟩).pathType ≠ PathType.exact →
        (handlers.get ⟨j, hj⟩).path.length ≤ (handlers.get ⟨i, hi⟩).path.length) := by
  obtain ⟨l, rfl⟩ := getBackendPathHandlers_lookup_sorted parseRequestURI ingressState routing
    hok host handlers hlook
  have hp := pairwise_sortSlice l
  rw [List.pairwise_iff_get] at hp
  constructor
  · intro i j hi hj hexact hnon
    rcases Nat.lt_trichotomy i j with h | h | h
    · exact h
    · subst h
      exact absurd hexact hnon
    · exact absurd ((hp ⟨j, hj⟩ ⟨i, hi⟩ h).1 hexact) hnon
  · intro i j hi hj hij hni hnj
    exact (hp ⟨i, hi⟩ ⟨j, hj⟩ hij).2 hni hnj

/-- Witness for the ordering claim: the example state with paths
(Prefix "/", Exact "/test123", Prefix "/test") loads to the ordered list
(Exact "/test123", Prefix "/test", Prefix "/"), which satisfies both
ordering conjuncts. -/
theorem getBackendPathHandlers_ordering_witness :
    getBackendPathHandlers parseAccept exIngressState = Except.ok exRouting ∧
    ((∀ i j (hi : i < exHandlers.length) (hj : j < exHandlers.length),
        (exHandlers.get ⟨i, hi⟩).pathType = PathType.exact →
        (exHandlers.get ⟨j, hj⟩).pathType ≠ PathType.exact → i < j) ∧
     (∀ i j (hi : i < exHandlers.length) (hj : j < exHandlers.length), i < j →
        (exHandlers.get ⟨i, hi⟩).pathType ≠ PathType.exact →
        (exHandlers.get ⟨j, hj⟩).pathType ≠ PathType.exact →
        (exHandlers.get ⟨j, hj⟩).path.length ≤ (exHandlers.get ⟨i, hi⟩).path.length)) :=
  ⟨rfl, getBackendPathHandlers_ordering parseAccept exIngressState exRouting rfl
    "localhost" exHandlers rfl⟩

/-! Helper lemma: find? returns the entry at the first index satisfying the predicate. -/

theorem find?_first_true {α : Type} (p : α → Bool) :
    ∀ (l : List α) (i : Nat) (hi : i < l.length),
      p (l.get ⟨i, hi⟩) = true →
      (∀ j (hj : j < l.length), j < i → p (l.get ⟨j, hj⟩) = false) →
      l.find? p = some (l.get ⟨i, hi⟩) := by
  intro l
  induction l with
  | nil =>
    intro i hi
    exact absurd hi (Nat.not_lt_zero i)
  | cons x xs ih =>
    intro i hi hp hprev
    cases i with
    | zero =>
      exact List.find?_cons_of_pos _ hp
    | succ i' =>
      have hx : p x = false := hprev 0 (Nat.succ_pos _) (Nat.succ_pos i')
      rw [List.find?_cons_of_neg _ (by simp [hx])]
      exact ih i' (Nat.lt_of_succ_lt_succ hi) hp
        (fun j hj hji => hprev (j + 1) (Nat.succ_lt_succ hj) (Nat.succ_lt_succ hji))

/-- Claim C3: the main proxy handler answers 503 while no snapshot is
published, 404 when the request host is not a routing-table key, dispatches to
the entry at the first index whose per-entry test (Exact-and-equal, or
path-begins-with-entry-path) succeeds, and answers 404 when no entry matches. -/
theorem getHandlerProxying_spec (stateCell : Option reverseProxyState) (host path : String) :
    (stateCell = none →
        getHandlerProxying stateCell host path = HandlerResponse.serviceUnavailable) ∧
    (∀ state, stateCell = some state →
        mapLookup state.backendPathHandlers host = none →
        getHandlerProxying stateCell host path = HandlerResponse.notFound) ∧
    (∀ state pathHandlers, stateCell = some state →
        mapLookup state.backendPathHandlers host = some pathHandlers →
        ((∀ pathHandler ∈ pathHandlers, entryMatches pathHandler path = false) →
            getHandlerProxying stateCell host path = HandlerResponse.notFound) ∧
        (∀ i (hi : i < pathHandlers.length),
            entryMatches (pathHandlers.get ⟨i, hi⟩) path = true →
            (∀ j (hj : j < pathHandlers.length), j < i →
                entryMatches (pathHandlers.get ⟨j, hj⟩) path = false) →
            getHandlerProxying stateCell host path =
              HandlerResponse.dispatched (pathHandlers.get ⟨i, hi⟩))) := by
  refine ⟨?_, ?_, ?_⟩
  · intro h
    subst h
    rfl
  · intro state h hl
    subst h
    simp [getHandlerProxying, hl]
  · intro state pathHandlers h hl
    subst h
    constructor
    · intro hall
      have hnone : matchPath pathHandlers path = none := by
        rw [matchPath, List.find?_eq_none]
        intro x hx
        simp [hall x hx]
      simp [getHandlerProxying, hl, hnone]
    · intro i hi hm hprev
      have hsome : matchPath pathHandlers path = some (pathHandlers.get ⟨i, hi⟩) :=
        find?_first_true _ pathHandlers i hi hm hprev
      simp [getHandlerProxying, hl, hsome]

/-- Witness for the main-handler claim: on the loaded example snapshot the
request (localhost, /test123) dispatches to the first (Exact) entry, an unknown
host yields 404, and an empty cell yields 503. -/
theorem getHandlerProxying_spec_witness :
    getHandlerProxying (some exSnapshot) "localhost" "/test123" =
      HandlerResponse.dispatched (exHandlers.get ⟨0, by decide⟩) ∧
    getHandlerProxying (some exSnapshot) "other" "/" = HandlerResponse.notFound ∧
    getHandlerProxying none "localhost" "/" = HandlerResponse.serviceUnavailable :=
  ⟨((getHandlerProxying_spec (some exSnapshot) "localhost" "/test123").2.2 exSnapshot
      exHandlers rfl rfl).2 0 (by decide) (by decide)
      (fun j hj hlt => absurd hlt (Nat.not_lt_zero j)),
   (getHandlerProxying_spec (some exSnapshot) "other" "/").2.1 exSnapshot rfl rfl,
   (getHandlerProxying_spec none "localhost" "/").1 rfl⟩

/-- Claim C4: the plain-HTTP redirect handler answers 503 while no snapshot is
published and 404 on host miss; a path under the ACME-challenge root whose
match succeeds is dispatched to the matched entry's proxy; any other path with
a matching entry is answered 308 with Location https://host+path; and when no
entry matches the answer is 404. -/
theorem getHttpsRedirectHandler_spec (stateCell : Option reverseProxyState)
    (host path : String) :
    (stateCell = none →
        getHttpsRedirectHandler stateCell host path = HandlerResponse.serviceUnavailable) ∧
    (∀ state, stateCell = some state →
        mapLookup state.backendPathHandlers host = none →
        getHttpsRedirectHandler stateCell host path = HandlerResponse.notFound) ∧
    (∀ state pathHandlers, stateCell = some state →
        mapLookup state.backendPathHandlers host = some pathHandlers →
        (hasPrefix path acmePath = true →
            ∀ pathHandler, matchPath pathHandlers path = some pathHandler →
            getHttpsRedirectHandler stateCell host path =
              HandlerResponse.dispatched pathHandler) ∧
        (hasPrefix path acmePath = false →
            ∀ pathHandler, matchPath pathHandlers path = some pathHandler →
            getHttpsRedirectHandler stateCell host path =
              HandlerResponse.permanentRedirect ("https://" ++ host ++ path)) ∧
        (matchPath pathHandlers path = none →
            getHttpsRedirectHandler stateCell host path = HandlerResponse.notFound)) := by
  refine ⟨?_, ?_, ?_⟩
  · intro h
    subst h
    rfl
  · intro state h hl
    subst h
    simp [getHttpsRedirectHandler, hl]
  · intro state pathHandlers h hl
    subst h
    refine ⟨?_, ?_, ?_⟩
    · intro hacme pathHandler hm
      simp [getHttpsRedirectHandler, hl, hacme, hm]
    · intro hacme pathHandler hm
      simp [getHttpsRedirectHandler, hl, hacme, hm]
    · intro hm
      cases hacme : hasPrefix path acmePath <;>
        simp [getHttpsRedirectHandler, hl, hacme, hm]

/-- Witness for the redirect-handler claim: on the example snapshot,
(localhost, /test) is answered 308 to https://localhost/test, an ACME-challenge
path matching the catch-all entry is dispatched, an unknown host gives 404, and
an empty cell gives 503. -/
theorem getHttpsRedirectHandler_spec_witness :
    getHttpsRedirectHandler (some exSnapshot) "localhost" "/test" =
      HandlerResponse.permanentRedirect "https://localhost/test" ∧
    getHttpsRedirectHandler (some exSnapshot) "localhost" "/.well-known/acme-challenge/token" =
      HandlerResponse.dispatched (exHandlers.get ⟨2, by decide⟩) ∧
    getHttpsRedirectHandler (some exSnapshot) "other" "/test" = HandlerResponse.notFound ∧
    getHttpsRedirectHandler none "localhost" "/test" = HandlerResponse.serviceUnavailable :=
  ⟨((getHttpsRedirectHandler_spec (some exSnapshot) "localhost" "/test").2.2 exSnapshot
      exHandlers rfl rfl).2.1 (by decide) (exHandlers.get ⟨1, by decide⟩) (by decide),
   ((getHttpsRedirectHandler_spec (some exSnapshot) "localhost"
      "/.well-known/acme-challenge/token").2.2 exSnapshot exHandlers rfl rfl).1
      (by decide) (exHandlers.get ⟨2, by decide⟩) (by decide),
   (getHttpsRedirectHandler_spec (some exSnapshot) "other" "/test").2.1 exSnapshot rfl rfl,
   (getHttpsRedirectHandler_spec none "localhost" "/test").1 rfl⟩

/-- Claim C9: the prefix test of the path matcher applies to Exact entries too —
an Exact entry whose path is a proper prefix of the request path fails the
Exact-equality clause yet still matches via the prefix clause, and as the first
entry of a host's list it receives the dispatch. -/
theorem exactEntry_prefixMatches (pathHandler : BackendPathHandler)
    (rest : List BackendPathHandler) (host : String) (certs : TlsCerts) (path : String)
    (hexact : pathHandler.pathType = PathType.exact)
    (hpre : hasPrefix path pathHandler.path = true)
    (hne : path ≠ pathHandler.path) :
    (decide (pathHandler.pathType = PathType.exact) && decide (path = pathHandler.path)) = false ∧
    entryMatches pathHandler path = true ∧
    matchPath (pathHandler :: rest) path = some pathHandler ∧
    getHandlerProxying
        (some { backendPathHandlers := [(host, pathHandler :: rest)], tlsCerts := certs })
        host path = HandlerResponse.dispatched pathHandler := by
  have h1 : (decide (pathHandler.pathType = PathType.exact) &&
      decide (path = pathHandler.path)) = false := by
    simp [hexact, hne]
  have h2 : entryMatches pathHandler path = true := by
    simp [entryMatches, hpre]
  have h3 : matchPath (pathHandler :: rest) path = some pathHandler :=
    List.find?_cons_of_pos _ h2
  refine ⟨h1, h2, h3, ?_⟩
  simp [getHandlerProxying, mapLookup, h3]

/-- Witness for the Exact-behaves-like-Prefix claim: the Exact entry for /test
matches the request path /test123 and receives the dispatch. -/
theorem exactEntry_prefixMatches_witness :
    entryMatches exExactHandler "/test123" = true ∧
    getHandlerProxying
        (some { backendPathHandlers := [("localhost", [exExactHandler])], tlsCerts := [] })
        "localhost" "/test123" = HandlerResponse.dispatched exExactHandler := by
  obtain ⟨h1, h2, h3, h4⟩ := exactEntry_prefixMatches exExactHandler [] "localhost" []
    "/test123" rfl (by decide) (by decide)
  exact ⟨h2, h4⟩

end IngressCtl
